import Mathlib

/-!
Verification of the FleetRoute Lite repository (src/Lite.py, src/pages/Pro.py)
against its natural-language specification.

The two source files are Streamlit callers of an external solver
`fleet_optimizer.solve_vrp`.  The solver and the external services (Google
geocoding, distance matrix) are modelled as function parameters; everything the
callers themselves compute (address filtering, matrix construction, metric
computation, the Optimize-Now control flow) is embedded faithfully below.

Numeric modelling: Python floats are modelled as exact rationals (Pro, whose
matrix entries are meters/1000) or reals (Lite, whose matrix entries involve a
square root).  `round(x, n)` is modelled as `pyRound n x = round(x * 10^n)/10^n`
with Mathlib's half-up `round`; Python uses half-even, which differs only at
exact half-way values, none of which occur in the statements below.
-/

/-- Errors a Python run of the handlers can surface: `typeError` for
subscripting `None`, `keyError` for a missing dict key, `solveError` for an
exception raised inside `solve_vrp`, `stopped` for `st.stop()`. -/
inductive PyErr
  | typeError
  | keyError
  | solveError
  | stopped
deriving DecidableEq

instance {ε α : Type} [DecidableEq ε] [DecidableEq α] : DecidableEq (Except ε α) := fun a b =>
  match a, b with
  | .error e, .error f =>
    if h : e = f then .isTrue (h ▸ rfl) else .isFalse (fun hc => h (Except.error.inj hc))
  | .ok x, .ok y =>
    if h : x = y then .isTrue (h ▸ rfl) else .isFalse (fun hc => h (Except.ok.inj hc))
  | .error _, .ok _ => .isFalse (fun hc => Except.noConfusion hc)
  | .ok _, .error _ => .isFalse (fun hc => Except.noConfusion hc)

/-- Truthiness of Python `s.strip()`: a string is blank iff every character is
whitespace, i.e. `s.strip()` is the empty (falsy) string. -/
def isBlank (s : String) : Bool :=
  s.toList.all Char.isWhitespace

/-- Left-to-right effectful map: the evaluation order of a Python list
comprehension, where the first raised exception aborts the whole expression. -/
def emapM {α β : Type} (f : α → Except PyErr β) : List α → Except PyErr (List β)
  | [] => .ok []
  | a :: l =>
    match f a with
    | .error e => .error e
    | .ok b =>
      match emapM f l with
      | .error e => .error e
      | .ok bs => .ok (b :: bs)

theorem exceptBind_ok {α β : Type} (a : α) (f : α → Except PyErr β) :
    (Except.ok a).bind f = f a := rfl

theorem exceptBind_error {α β : Type} (e : PyErr) (f : α → Except PyErr β) :
    (Except.error e : Except PyErr α).bind f = .error e := rfl

theorem emapM_ok_of_forall {α β : Type} (f : α → Except PyErr β) (g : α → β) :
    ∀ l : List α, (∀ x ∈ l, f x = .ok (g x)) → emapM f l = .ok (l.map g)
  | [], _ => rfl
  | a :: l, h => by
    have ha : f a = .ok (g a) := h a (List.mem_cons_self a l)
    have hl : emapM f l = .ok (l.map g) :=
      emapM_ok_of_forall f g l (fun x hx => h x (List.mem_cons_of_mem a hx))
    simp [emapM, ha, hl]

theorem emapM_error_of_mem {α β : Type} (f : α → Except PyErr β) :
    ∀ (l : List α) (x : α), x ∈ l → (∃ e, f x = .error e) →
      ∃ e2, emapM f l = .error e2
  | [], x, hx, _ => absurd hx (List.not_mem_nil x)
  | a :: l, x, hx, he => by
    rcases he with ⟨e, he⟩
    rcases List.mem_cons.mp hx with h | h
    · subst h
      exact ⟨e, by simp [emapM, he]⟩
    · cases ha : f a with
      | error e3 => exact ⟨e3, by simp [emapM, ha]⟩
      | ok b =>
        rcases emapM_error_of_mem f l x h ⟨e, he⟩ with ⟨e2, he2⟩
        exact ⟨e2, by simp [emapM, ha, he2]⟩

/-- Python `round(x, d)` (ideal-arithmetic model, half-up instead of
half-even). -/
def pyRound {α : Type} [LinearOrderedField α] [FloorRing α] (d : ℕ) (x : α) : α :=
  ((round (x * (10 : α) ^ d) : ℤ) : α) / (10 : α) ^ d

/-- `sum(m[path[i]][path[i+1]] for i in range(len(path)-1))`, the per-route
total distance both handlers compute (Lite.py line 165, Pro.py line 196). -/
def totalDist {α : Type} [Add α] [Zero α] (m : List (List α)) (path : List Nat) : α :=
  ((List.range (path.length - 1)).map (fun i =>
      (m.getD (path.getD i 0) []).getD (path.getD (i + 1) 0) 0)).foldl (· + ·) 0

/-- A geocoded (lat, lng) pair. -/
abbrev Coord := ℚ × ℚ

/-! ## Lite.py -/

/-- `geocode_address` (Lite.py lines 56-67): blank or non-string input returns
`None`; otherwise the external Google client `ext` answers, with any exception
already collapsed to `none` by the `try`/`except` that warns and returns
`None`. -/
def liteGeocode (ext : String → Option Coord) (a : String) : Option Coord :=
  if isBlank a then none else ext a

/-- `address_list = [depot_address] + [addr for _, addr in stops if addr.strip()]`
(Lite.py line 149). -/
def liteAddressList (depot : String) (stops : List (String × String)) : List String :=
  depot :: (stops.filter (fun s => !(isBlank s.2))).map (·.2)

/-- `label_list = ["Depot"] + [lbl for lbl, addr in stops if addr.strip()]`
(Lite.py line 150). -/
def liteLabelList (stops : List (String × String)) : List String :=
  "Depot" :: (stops.filter (fun s => !(isBlank s.2))).map (·.1)

/-- One off-diagonal matrix entry (Lite.py line 159):
`((coords[i][0]-coords[j][0])**2 + (coords[i][1]-coords[j][1])**2)**0.5 * 111`. -/
noncomputable def liteEntry (c d : Coord) : ℝ :=
  Real.sqrt (((c.1 - d.1 : ℚ) : ℝ) ^ 2 + ((c.2 - d.2 : ℚ) : ℝ) ^ 2) * 111

/-- A matrix entry computed from the two optional geocoding results: Python
subscripts `coords[i][0]`, so a `None` coordinate raises `TypeError`. -/
noncomputable def liteEntryE (a b : Option Coord) : Except PyErr ℝ :=
  match a, b with
  | some c, some d => .ok (liteEntry c d)
  | _, _ => .error .typeError

/-- The matrix comprehension (Lite.py lines 159-160):
`[[0 if i == j else ... for j in range(len(coords))] for i in range(len(coords))]`,
evaluated left to right with the first `TypeError` aborting the handler. -/
noncomputable def liteMatrixE (coords : List (Option Coord)) : Except PyErr (List (List ℝ)) :=
  emapM (fun i =>
      emapM (fun j =>
          if i = j then .ok (0 : ℝ)
          else liteEntryE (coords.getD i none) (coords.getD j none))
        (List.range coords.length))
    (List.range coords.length)

/-- The same matrix when every address geocoded successfully. -/
noncomputable def liteDistMatrix (coords : List Coord) : List (List ℝ) :=
  (List.range coords.length).map (fun i =>
    (List.range coords.length).map (fun j =>
      if i = j then 0 else liteEntry (coords.getD i (0, 0)) (coords.getD j (0, 0))))

/-- The per-route record appended to `st.session_state.route_stats`
(Lite.py lines 155, 173-177, 181). -/
structure LiteStats where
  distance : ℝ
  time : ℝ
  score : String

/-- The body of the per-vehicle loop of the Optimize Now handler
(Lite.py lines 148-181).  `ext` is the Google geocoder behind
`geocode_address`, `solver` is `fleet_optimizer.solve_vrp` (not part of this
repository); Lite wraps no `try` around either the matrix construction or the
solver call, so a geocoding `None` surfaces as an uncaught `TypeError`. -/
noncomputable def liteVehicleStep (ext : String → Option Coord)
    (solver : List (List ℝ) → Nat → List (List Nat))
    (depot : String) (stops : List (String × String)) (return_to_depot : Bool) :
    Except PyErr (List String × List String × LiteStats) :=
  if (liteAddressList depot stops).length < 2 then
    .ok ([], [], ⟨0, 0, "⚠️ Underused"⟩)
  else
    (liteMatrixE ((liteAddressList depot stops).map (liteGeocode ext))).bind fun dist_matrix =>
      match solver dist_matrix 1 with
      | [] => .ok ([], [], ⟨0, 0, "❌ No route"⟩)
      | path :: _ =>
        .ok (path.map (fun i => (liteLabelList stops).getD i ""),
             path.map (fun i => (liteAddressList depot stops).getD i ""),
             ⟨pyRound 2 (totalDist dist_matrix path),
              pyRound 1 (totalDist dist_matrix path / 40 * 60),
              if (if return_to_depot then (path.length : ℤ) - 2
                  else (path.length : ℤ) - 1) ≤ 2 then "🕦 Light"
              else if (if return_to_depot then (path.length : ℤ) - 2
                       else (path.length : ℤ) - 1) ≤ 4 then "🟡 Medium"
              else "🔴 Heavy"⟩)

/-- The Optimize Now loop over vehicles (Lite.py lines 147-181): an uncaught
exception in one vehicle aborts the remaining iterations. -/
noncomputable def liteLoop (ext : String → Option Coord)
    (solver : List (List ℝ) → Nat → List (List Nat))
    (depot : String) (return_to_depot : Bool) :
    List (List (String × String)) →
      Except PyErr (List (List String × List String × LiteStats))
  | [] => .ok []
  | v :: vs =>
    match liteVehicleStep ext solver depot v return_to_depot with
    | .error e => .error e
    | .ok r =>
      match liteLoop ext solver depot return_to_depot vs with
      | .error e => .error e
      | .ok rs => .ok (r :: rs)

/-- The whole Lite optimize path: the depot is geocoded first
(Lite.py lines 106-108, `st.stop()` when it fails), then each vehicle is
processed. -/
noncomputable def liteOptimize (ext : String → Option Coord)
    (solver : List (List ℝ) → Nat → List (List Nat))
    (depot : String) (vehicles : List (List (String × String)))
    (return_to_depot : Bool) :
    Except PyErr (List (List String × List String × LiteStats)) :=
  match liteGeocode ext depot with
  | none => .error .stopped
  | some _ => liteLoop ext solver depot return_to_depot vehicles

/-! ## pages/Pro.py -/

/-- One entry of a Pro route (`{"address": ..., "time": ..., "load": ...,
"driver": ...}`, Pro.py lines 115-120); only `address` reaches the optimize
handler. -/
structure ProStop where
  address : String
  time : String
  load : ℕ
  driver : String
deriving DecidableEq

/-- `addresses = [depot_address] + [s["address"] for s in stops if s["address"].strip()]`
(Pro.py line 174). -/
def proAddresses (depot : String) (stops : List ProStop) : List String :=
  depot :: (stops.filter (fun s => !(isBlank s.address))).map (·.address)

/-- `get_distance_matrix` (Pro.py lines 32-34): each response element either
carries a distance value in meters or (unreachable pair) lacks the
`'distance'` key, in which case `e['distance']['value']` raises `KeyError`. -/
def proGetDistanceMatrix (rows : List (List (Option ℤ))) : Except PyErr (List (List ℚ)) :=
  emapM (fun row =>
      emapM (fun e =>
          match e with
          | some v => .ok ((v : ℚ) / 1000)
          | none => .error .keyError)
        row)
    rows

/-- The per-route record stored in `st.session_state.metrics`
(Pro.py lines 200-205). -/
structure ProMetrics where
  path : List String
  distance : ℚ
  cost : ℚ
  duration : ℚ
deriving DecidableEq

/-- What one iteration of the Pro optimize loop contributes: nothing
(fewer than two addresses), a warning (the bare `except` around
`solve_vrp(matrix, 1)[0]`), or a metrics record. -/
inductive ProOutcome
  | skip
  | warn (msg : String)
  | record (name : String) (metrics : ProMetrics)
deriving DecidableEq

/-- The body of the per-route loop of the Pro Optimize Now handler
(Pro.py lines 173-209).  `gm` is the Google distance-matrix response for a
given address list and `solve` is `fleet_optimizer.solve_vrp`, which like any
Python call may raise; `get_distance_matrix` sits outside the `try`, so its
`KeyError` propagates, while any exception in `solve_vrp(matrix, 1)[0]`
(including the `IndexError` on an empty result) becomes a warning. -/
def proRouteStep (gm : List String → List (List (Option ℤ)))
    (solve : List (List ℚ) → Nat → Except PyErr (List (List Nat)))
    (depot : String) (fuel_cost : ℚ) (name : String) (stops : List ProStop) :
    Except PyErr ProOutcome :=
  if (proAddresses depot stops).length < 2 then .ok .skip
  else
    (proGetDistanceMatrix (gm (proAddresses depot stops))).bind fun matrix =>
      match solve matrix 1 with
      | .error _ => .ok (.warn ("⚠️ Optimization failed for " ++ name))
      | .ok [] => .ok (.warn ("⚠️ Optimization failed for " ++ name))
      | .ok (indices :: _) =>
        .ok (.record name
          ⟨indices.map (fun i => (proAddresses depot stops).getD i ""),
           pyRound 2 (totalDist matrix indices),
           pyRound 2 (totalDist matrix indices * fuel_cost),
           pyRound 1 (totalDist matrix indices / 40 * 60)⟩)

/-- The Pro optimize loop over `st.session_state.routes` (Pro.py lines
173-209), accumulating the metrics dict (insertion order) and the emitted
warnings. -/
def proLoop (gm : List String → List (List (Option ℤ)))
    (solve : List (List ℚ) → Nat → Except PyErr (List (List Nat)))
    (depot : String) (fuel_cost : ℚ) :
    List (String × List ProStop) →
      List (String × ProMetrics) × List String →
      Except PyErr (List (String × ProMetrics) × List String)
  | [], acc => .ok acc
  | r :: rest, acc =>
    match proRouteStep gm solve depot fuel_cost r.1 r.2 with
    | .error e => .error e
    | .ok .skip => proLoop gm solve depot fuel_cost rest acc
    | .ok (.warn msg) => proLoop gm solve depot fuel_cost rest (acc.1, acc.2 ++ [msg])
    | .ok (.record n m) => proLoop gm solve depot fuel_cost rest (acc.1 ++ [(n, m)], acc.2)

/-- The whole Pro Optimize Now handler (Pro.py lines 164-213): the depot is
geocoded first (`st.error` + `st.stop()` on failure, Pro.py lines 165-168),
then every stored route is processed. -/
def proOptimize (geo : String → Option Coord)
    (gm : List String → List (List (Option ℤ)))
    (solve : List (List ℚ) → Nat → Except PyErr (List (List Nat)))
    (depot : String) (fuel_cost : ℚ) (routes : List (String × List ProStop)) :
    Except PyErr (List (String × ProMetrics) × List String) :=
  match geo depot with
  | none => .error .stopped
  | some _ => proLoop gm solve depot fuel_cost routes ([], [])

/-- Forget the fuel-cost field of a recorded metrics entry; used to state that
everything else in a Pro metrics record is independent of the fuel-cost
configuration. -/
def eraseCost : ProOutcome → ProOutcome
  | .record n m => .record n ⟨m.path, m.distance, 0, m.duration⟩
  | o => o

/-! ## Helper lemmas -/

theorem getD_eq_get_of_lt {α : Type} (l : List α) (i : ℕ) (h : i < l.length) (d : α) :
    l.getD i d = l.get ⟨i, h⟩ := by
  rw [List.getD_eq_getElem?_getD, List.getElem?_eq_getElem h]
  rfl

theorem getD_map_of_lt {α β : Type} (f : α → β) (l : List α) (i : ℕ) (h : i < l.length)
    (d : β) : (l.map f).getD i d = f (l.get ⟨i, h⟩) := by
  rw [List.getD_eq_getElem?_getD, List.getElem?_map, List.getElem?_eq_getElem h]
  rfl

theorem getD_range_map {β : Type} (n i : ℕ) (f : ℕ → β) (h : i < n) (d : β) :
    ((List.range n).map f).getD i d = f i := by
  rw [List.getD_eq_getElem?_getD, List.getElem?_map, List.getElem?_range h]
  rfl

/-! ## Claims -/

/-- C6: both callers build the address list with the depot address prepended at
index 0 (Lite.py line 149, Pro.py line 174), so node index 0 of the label
list, of the geocoded coordinate list (hence of the distance matrix), and of
every rendered path denotes the depot. -/
theorem depot_at_index_zero (ext : String → Option Coord) (d : String)
    (stopsL : List (String × String)) (stopsP : List ProStop) :
    (liteAddressList d stopsL).head? = some d ∧
    (liteAddressList d stopsL).getD 0 "" = d ∧
    (liteLabelList stopsL).head? = some "Depot" ∧
    ((liteAddressList d stopsL).map (liteGeocode ext)).head? = some (liteGeocode ext d) ∧
    (proAddresses d stopsP).head? = some d ∧
    (proAddresses d stopsP).getD 0 "" = d :=
  ⟨rfl, rfl, rfl, rfl, rfl, rfl⟩

/-- C2: a vehicle whose entered stops all have blank addresses gives an address
list shorter than 2 (just the depot); Lite then records empty path and address
lists and a stats dict with distance 0, time 0 (Lite.py lines 152-156), and
the result does not depend on the solver — `solve_vrp` is not invoked. -/
theorem zero_stops_empty_route (ext : String → Option Coord) (depot : String)
    (stops : List (String × String)) (r2d : Bool)
    (h : (liteAddressList depot stops).length < 2) :
    ∀ solver, liteVehicleStep ext solver depot stops r2d =
      .ok ([], [], ⟨0, 0, "⚠️ Underused"⟩) := by
  intro solver
  rw [liteVehicleStep, if_pos h]

theorem zero_stops_empty_route_witness :
    liteVehicleStep (fun _ => some (0, 0)) (fun _ _ => [[0, 1, 0]]) "D" [("Stop 1", "   ")]
      true = .ok ([], [], ⟨0, 0, "⚠️ Underused"⟩) :=
  zero_stops_empty_route (fun _ => some (0, 0)) "D" [("Stop 1", "   ")] true (by decide)
    (fun _ _ => [[0, 1, 0]])

/-- C7: both Optimize Now handlers invoke `solve_vrp` with vehicle count 1
(Lite.py line 162, Pro.py line 180): each handler result depends on the solver
only through its behaviour at vehicle count 1, so two solvers that agree there
are interchangeable. -/
theorem solver_invoked_with_vehicle_count_one (ext : String → Option Coord)
    (s₁ s₂ : List (List ℝ) → Nat → List (List Nat))
    (gm : List String → List (List (Option ℤ)))
    (ps₁ ps₂ : List (List ℚ) → Nat → Except PyErr (List (List Nat)))
    (depot : String) (stopsL : List (String × String)) (r2d : Bool)
    (fuel : ℚ) (name : String) (stopsP : List ProStop)
    (hL : ∀ m, s₁ m 1 = s₂ m 1) (hP : ∀ m, ps₁ m 1 = ps₂ m 1) :
    liteVehicleStep ext s₁ depot stopsL r2d = liteVehicleStep ext s₂ depot stopsL r2d ∧
    proRouteStep gm ps₁ depot fuel name stopsP = proRouteStep gm ps₂ depot fuel name stopsP := by
  constructor
  · rw [liteVehicleStep, liteVehicleStep]
    by_cases h : (liteAddressList depot stopsL).length < 2
    · rw [if_pos h, if_pos h]
    · rw [if_neg h, if_neg h]
      cases hm : liteMatrixE ((liteAddressList depot stopsL).map (liteGeocode ext)) with
      | error e => rfl
      | ok m => rw [exceptBind_ok, exceptBind_ok, hL m]
  · rw [proRouteStep, proRouteStep]
    by_cases h : (proAddresses depot stopsP).length < 2
    · rw [if_pos h, if_pos h]
    · rw [if_neg h, if_neg h]
      cases hm : proGetDistanceMatrix (gm (proAddresses depot stopsP)) with
      | error e => rfl
      | ok m => rw [exceptBind_ok, exceptBind_ok, hP m]

theorem solver_invoked_with_vehicle_count_one_witness :
    liteVehicleStep (fun _ => some (0, 0)) (fun _ _ => []) "D" [("Stop 1", "A")] true =
      liteVehicleStep (fun _ => some (0, 0))
        (fun _ k => if k = 1 then [] else [[0, 1, 0]]) "D" [("Stop 1", "A")] true ∧
    proRouteStep (fun _ => [[some 0]]) (fun _ _ => .ok []) "D" 1 "R" [⟨"A", "", 0, ""⟩] =
      proRouteStep (fun _ => [[some 0]])
        (fun _ k => if k = 1 then .ok [] else .error .solveError) "D" 1 "R" [⟨"A", "", 0, ""⟩] :=
  solver_invoked_with_vehicle_count_one (fun _ => some (0, 0)) (fun _ _ => [])
    (fun _ k => if k = 1 then [] else [[0, 1, 0]]) (fun _ => [[some 0]])
    (fun _ _ => .ok []) (fun _ k => if k = 1 then .ok [] else .error .solveError)
    "D" [("Stop 1", "A")] true 1 "R" [⟨"A", "", 0, ""⟩]
    (fun _ => rfl) (fun _ => rfl)

theorem liteMatrixE_map_some (coords : List Coord) :
    liteMatrixE (coords.map some) = .ok (liteDistMatrix coords) := by
  rw [liteMatrixE, liteDistMatrix, List.length_map]
  apply emapM_ok_of_forall
  intro i hi
  apply emapM_ok_of_forall
  intro j hj
  by_cases hij : i = j
  · rw [if_pos hij, if_pos hij]
  · rw [if_neg hij, if_neg hij,
      getD_map_of_lt some coords i (List.mem_range.mp hi),
      getD_map_of_lt some coords j (List.mem_range.mp hj),
      getD_eq_get_of_lt coords i (List.mem_range.mp hi),
      getD_eq_get_of_lt coords j (List.mem_range.mp hj)]
    rfl

/-- C8: for a list of successfully geocoded coordinates, the distance matrix
Lite builds (Lite.py lines 158-160) is exactly `liteDistMatrix`, which is
square with side `len(coords)`, has `matrix[i][i] = 0`, and has no negative
entries (each off-diagonal entry is `sqrt(...) * 111 ≥ 0`). -/
theorem lite_matrix_square_diag_zero_nonneg (coords : List Coord) :
    liteMatrixE (coords.map some) = .ok (liteDistMatrix coords) ∧
    (liteDistMatrix coords).length = coords.length ∧
    (∀ i : Fin coords.length, ((liteDistMatrix coords).getD i []).length = coords.length) ∧
    (∀ i : Fin coords.length, ((liteDistMatrix coords).getD i []).getD i 1 = 0) ∧
    (∀ i j : Fin coords.length, 0 ≤ ((liteDistMatrix coords).getD i []).getD j (-1)) := by
  refine ⟨liteMatrixE_map_some coords, ?_, ?_, ?_, ?_⟩
  · rw [liteDistMatrix, List.length_map, List.length_range]
  · intro i
    rw [liteDistMatrix, getD_range_map _ _ _ i.isLt, List.length_map, List.length_range]
  · intro i
    rw [liteDistMatrix, getD_range_map _ _ _ i.isLt, getD_range_map _ _ _ i.isLt, if_pos rfl]
  · intro i j
    rw [liteDistMatrix, getD_range_map _ _ _ i.isLt, getD_range_map _ _ _ j.isLt]
    by_cases hij : (i : ℕ) = (j : ℕ)
    · rw [if_pos hij]
    · rw [if_neg hij, liteEntry]
      exact mul_nonneg (Real.sqrt_nonneg _) (by norm_num)

theorem liteEntryE_left_none (b : Option Coord) : liteEntryE none b = .error .typeError := by
  cases b <;> rfl

theorem liteEntryE_right_none (a : Option Coord) : liteEntryE a none = .error .typeError := by
  cases a <;> rfl

theorem liteMatrixE_error_of_none (coords : List (Option Coord))
    (h2 : 2 ≤ coords.length) (k : ℕ) (hk : k < coords.length)
    (hnone : coords.getD k none = none) :
    ∃ e, liteMatrixE coords = .error e := by
  have h0 : 0 < coords.length := by omega
  have hentry : ∃ e,
      (if (0 : ℕ) = (if k = 0 then 1 else k) then Except.ok (0 : ℝ)
       else liteEntryE (coords.getD 0 none) (coords.getD (if k = 0 then 1 else k) none)) =
        .error e := by
    by_cases hk0 : k = 0
    · rw [if_pos hk0, if_neg (by omega : ¬ (0 : ℕ) = 1)]
      subst hk0
      exact ⟨.typeError, by rw [hnone, liteEntryE_left_none]⟩
    · rw [if_neg hk0, if_neg (by omega : ¬ (0 : ℕ) = k)]
      exact ⟨.typeError, by rw [hnone, liteEntryE_right_none]⟩
  have hjlt : (if k = 0 then 1 else k) < coords.length := by
    by_cases hk0 : k = 0 <;> simp [hk0] <;> omega
  have hrow : ∃ e, emapM (fun j =>
      if (0 : ℕ) = j then Except.ok (0 : ℝ)
      else liteEntryE (coords.getD 0 none) (coords.getD j none))
      (List.range coords.length) = .error e :=
    emapM_error_of_mem _ (List.range coords.length) (if k = 0 then 1 else k)
      (List.mem_range.mpr hjlt) hentry
  exact emapM_error_of_mem _ (List.range coords.length) 0 (List.mem_range.mpr h0) hrow

/-- C9: Lite's matrix construction has no guard for failed geocoding: when
`geocode_address` returns `None` for any address in the list (and the vehicle
has at least one non-blank stop, so the matrix is actually built), the
comprehension subscripts `None`, the per-vehicle step surfaces an uncaught
`TypeError`, and the whole Optimize Now loop aborts. -/
theorem lite_geocode_none_aborts (ext : String → Option Coord)
    (solver : List (List ℝ) → Nat → List (List Nat))
    (depot : String) (stops : List (String × String)) (r2d : Bool)
    (h2 : 2 ≤ (liteAddressList depot stops).length)
    (hnone : ∃ a ∈ liteAddressList depot stops, liteGeocode ext a = none) :
    (∃ e, liteVehicleStep ext solver depot stops r2d = .error e) ∧
    (∀ vs, ∃ e, liteOptimize ext solver depot (stops :: vs) r2d = .error e) := by
  obtain ⟨a, ha, hga⟩ := hnone
  obtain ⟨⟨k, hk⟩, hak⟩ := List.mem_iff_get.mp ha
  have hcoords : ((liteAddressList depot stops).map (liteGeocode ext)).getD k none = none := by
    rw [getD_map_of_lt _ _ _ hk, hak, hga]
  obtain ⟨e, he⟩ := liteMatrixE_error_of_none
    ((liteAddressList depot stops).map (liteGeocode ext))
    (by rwa [List.length_map]) k (by rwa [List.length_map]) hcoords
  have hstep : liteVehicleStep ext solver depot stops r2d = .error e := by
    rw [liteVehicleStep, if_neg (Nat.not_lt.mpr h2), he, exceptBind_error]
  refine ⟨⟨e, hstep⟩, ?_⟩
  intro vs
  rw [liteOptimize]
  cases hd : liteGeocode ext depot with
  | none => exact ⟨.stopped, rfl⟩
  | some c => exact ⟨e, by simp only [liteLoop, hstep]⟩

theorem lite_geocode_none_aborts_witness :
    (∃ e, liteVehicleStep (fun _ => none) (fun _ _ => [[0, 1, 0]]) "D" [("Stop 1", "A")] true =
      .error e) ∧
    (∀ vs, ∃ e, liteOptimize (fun _ => none) (fun _ _ => [[0, 1, 0]]) "D"
      ([("Stop 1", "A")] :: vs) true = .error e) :=
  lite_geocode_none_aborts (fun _ => none) (fun _ _ => [[0, 1, 0]]) "D" [("Stop 1", "A")] true
    (by decide) ⟨"D", by decide, by decide⟩

/-- C10: both handlers keep only stops whose address passes the
`addr.strip()` truthiness test (Lite.py lines 149-150, Pro.py line 174), and
Lite filters labels with the same predicate, so label and address lists have
equal length.  The depot entry is non-blank too: in Lite `geocode_address`
itself rejects blank strings, and the handler only runs after the depot
geocoded; in Pro the depot is non-blank whenever the external geocoder
rejects blank strings and the handler passed the depot-geocoding check. -/
theorem blank_addresses_filtered (extL extP : String → Option Coord)
    (depotL depotP : String) (stopsL : List (String × String)) (stopsP : List ProStop)
    (hL : liteGeocode extL depotL ≠ none)
    (hPblank : ∀ s, isBlank s = true → extP s = none)
    (hPdepot : extP depotP ≠ none) :
    (∀ a ∈ liteAddressList depotL stopsL, isBlank a = false) ∧
    (liteLabelList stopsL).length = (liteAddressList depotL stopsL).length ∧
    (∀ a ∈ proAddresses depotP stopsP, isBlank a = false) := by
  have hdL : isBlank depotL = false := by
    by_contra h
    exact hL (by rw [liteGeocode, if_pos (Bool.not_eq_false _ ▸ h)])
  have hdP : isBlank depotP = false := by
    by_contra h
    exact hPdepot (hPblank _ (Bool.not_eq_false _ ▸ h))
  refine ⟨?_, ?_, ?_⟩
  · intro a ha
    rw [liteAddressList] at ha
    rcases List.mem_cons.mp ha with rfl | ha2
    · exact hdL
    · obtain ⟨s, hs, rfl⟩ := List.mem_map.mp ha2
      simpa using (List.mem_filter.mp hs).2
  · rw [liteLabelList, liteAddressList]
    simp [List.length_map]
  · intro a ha
    rw [proAddresses] at ha
    rcases List.mem_cons.mp ha with rfl | ha2
    · exact hdP
    · obtain ⟨s, hs, rfl⟩ := List.mem_map.mp ha2
      simpa using (List.mem_filter.mp hs).2

theorem blank_addresses_filtered_witness :
    (∀ a ∈ liteAddressList "Depot St 1" [("Stop 1", "A"), ("Stop 2", "  ")],
      isBlank a = false) ∧
    (liteLabelList [("Stop 1", "A"), ("Stop 2", "  ")]).length =
      (liteAddressList "Depot St 1" [("Stop 1", "A"), ("Stop 2", "  ")]).length ∧
    (∀ a ∈ proAddresses "Depot St 2" [⟨"B", "", 0, ""⟩, ⟨" ", "", 0, ""⟩],
      isBlank a = false) :=
  blank_addresses_filtered (fun _ => some (0, 0))
    (fun s => if isBlank s then none else some (0, 0))
    "Depot St 1" "Depot St 2" [("Stop 1", "A"), ("Stop 2", "  ")]
    [⟨"B", "", 0, ""⟩, ⟨" ", "", 0, ""⟩]
    (by decide) (fun s h => by simp only [h, if_true]) (by decide)

/-- C1 counterexample: the value the callers report is `round(total, 2)`, not
the edge sum itself.  With a Google distance-matrix response of 111 meters
each way, the edge sum along `[0, 1, 0]` is 0.222 km but the recorded
distance is 0.22 km. -/
theorem reported_distance_not_exact_edge_sum :
    proRouteStep (fun _ => [[some 0, some 111], [some 111, some 0]])
        (fun _ _ => .ok [[0, 1, 0]]) "D" 0 "R" [⟨"A", "", 0, ""⟩] =
      .ok (.record "R" ⟨["D", "A", "D"], 11/50, 0, 3/10⟩) ∧
    proGetDistanceMatrix [[some 0, some 111], [some 111, some 0]] =
      .ok [[(0 : ℚ), 111/1000], [111/1000, 0]] ∧
    totalDist [[(0 : ℚ), 111/1000], [111/1000, 0]] [0, 1, 0] = 111/500 ∧
    (11/50 : ℚ) ≠ 111/500 := by
  have ha : proAddresses "D" [⟨"A", "", 0, ""⟩] = ["D", "A"] := by decide
  have hm : proGetDistanceMatrix [[some 0, some 111], [some 111, some 0]] =
      .ok [[(0 : ℚ), 111/1000], [111/1000, 0]] := by
    simp [proGetDistanceMatrix, emapM]
  have htot : totalDist [[(0 : ℚ), 111/1000], [111/1000, 0]] [0, 1, 0] = 111/500 := by
    rw [totalDist]; norm_num [List.range_succ]
  refine ⟨?_, hm, htot, by norm_num⟩
  rw [proRouteStep, ha]
  norm_num [hm, exceptBind_ok]
  rw [totalDist]
  norm_num [List.range_succ, pyRound, round_eq]

/-- C1 amended: for every route the solver returns, the per-route distance the
callers record equals the sum of the distance-matrix costs of consecutive
edges along the path, rounded to two decimal places (Lite.py lines 165 and
174, Pro.py lines 196 and 203). -/
theorem reported_distance_is_rounded_edge_sum (ext : String → Option Coord)
    (solver : List (List ℝ) → Nat → List (List Nat))
    (depot : String) (stops : List (String × String)) (r2d : Bool)
    (m : List (List ℝ)) (p : List Nat) (ptail : List (List Nat))
    (gm : List String → List (List (Option ℤ)))
    (psolve : List (List ℚ) → Nat → Except PyErr (List (List Nat)))
    (pdepot : String) (fuel : ℚ) (pname : String) (pstops : List ProStop)
    (pm : List (List ℚ)) (pidx : List Nat) (prest : List (List Nat))
    (hL2 : ¬ (liteAddressList depot stops).length < 2)
    (hLm : liteMatrixE ((liteAddressList depot stops).map (liteGeocode ext)) = .ok m)
    (hLs : solver m 1 = p :: ptail)
    (hP2 : ¬ (proAddresses pdepot pstops).length < 2)
    (hPm : proGetDistanceMatrix (gm (proAddresses pdepot pstops)) = .ok pm)
    (hPs : psolve pm 1 = .ok (pidx :: prest)) :
    (∃ sc, liteVehicleStep ext solver depot stops r2d =
      .ok (p.map (fun i => (liteLabelList stops).getD i ""),
           p.map (fun i => (liteAddressList depot stops).getD i ""),
           ⟨pyRound 2 (totalDist m p), pyRound 1 (totalDist m p / 40 * 60), sc⟩)) ∧
    proRouteStep gm psolve pdepot fuel pname pstops =
      .ok (.record pname
        ⟨pidx.map (fun i => (proAddresses pdepot pstops).getD i ""),
         pyRound 2 (totalDist pm pidx),
         pyRound 2 (totalDist pm pidx * fuel),
         pyRound 1 (totalDist pm pidx / 40 * 60)⟩) := by
  constructor
  · refine ⟨if (if r2d then (p.length : ℤ) - 2 else (p.length : ℤ) - 1) ≤ 2 then "🕦 Light"
      else if (if r2d then (p.length : ℤ) - 2 else (p.length : ℤ) - 1) ≤ 4 then "🟡 Medium"
      else "🔴 Heavy", ?_⟩
    rw [liteVehicleStep, if_neg hL2, hLm, exceptBind_ok, hLs]
  · rw [proRouteStep, if_neg hP2, hPm, exceptBind_ok, hPs]

theorem reported_distance_is_rounded_edge_sum_witness :
    (∃ sc, liteVehicleStep (fun _ => some (0, 0)) (fun _ _ => [[0, 1, 0]]) "D"
        [("Stop 1", "A")] true =
      .ok ([0, 1, 0].map (fun i => (liteLabelList [("Stop 1", "A")]).getD i ""),
           [0, 1, 0].map (fun i => (liteAddressList "D" [("Stop 1", "A")]).getD i ""),
           ⟨pyRound 2 (totalDist [[(0 : ℝ), liteEntry (0, 0) (0, 0)],
              [liteEntry (0, 0) (0, 0), (0 : ℝ)]] [0, 1, 0]),
            pyRound 1 (totalDist [[(0 : ℝ), liteEntry (0, 0) (0, 0)],
              [liteEntry (0, 0) (0, 0), (0 : ℝ)]] [0, 1, 0] / 40 * 60), sc⟩)) ∧
    proRouteStep (fun _ => [[some 0, some 111], [some 111, some 0]])
        (fun _ _ => .ok [[0, 1, 0]]) "P" 1 "R" [⟨"B", "", 0, ""⟩] =
      .ok (.record "R"
        ⟨[0, 1, 0].map (fun i => (proAddresses "P" [⟨"B", "", 0, ""⟩]).getD i ""),
         pyRound 2 (totalDist [[((0 : ℤ) : ℚ) / 1000, ((111 : ℤ) : ℚ) / 1000],
           [((111 : ℤ) : ℚ) / 1000, ((0 : ℤ) : ℚ) / 1000]] [0, 1, 0]),
         pyRound 2 (totalDist [[((0 : ℤ) : ℚ) / 1000, ((111 : ℤ) : ℚ) / 1000],
           [((111 : ℤ) : ℚ) / 1000, ((0 : ℤ) : ℚ) / 1000]] [0, 1, 0] * 1),
         pyRound 1 (totalDist [[((0 : ℤ) : ℚ) / 1000, ((111 : ℤ) : ℚ) / 1000],
           [((111 : ℤ) : ℚ) / 1000, ((0 : ℤ) : ℚ) / 1000]] [0, 1, 0] / 40 * 60)⟩) :=
  reported_distance_is_rounded_edge_sum (fun _ => some (0, 0)) (fun _ _ => [[0, 1, 0]])
    "D" [("Stop 1", "A")] true
    [[(0 : ℝ), liteEntry (0, 0) (0, 0)], [liteEntry (0, 0) (0, 0), (0 : ℝ)]]
    [0, 1, 0] []
    (fun _ => [[some 0, some 111], [some 111, some 0]]) (fun _ _ => .ok [[0, 1, 0]])
    "P" 1 "R" [⟨"B", "", 0, ""⟩]
    [[((0 : ℤ) : ℚ) / 1000, ((111 : ℤ) : ℚ) / 1000],
     [((111 : ℤ) : ℚ) / 1000, ((0 : ℤ) : ℚ) / 1000]]
    [0, 1, 0] []
    (by decide) rfl rfl (by decide) rfl rfl

/-- C4 counterexample: Pro's bare `except` around `solve_vrp(matrix, 1)[0]`
(Pro.py lines 179-183) swallows the solver error for Route 1 (turning it into
a warning) and the run still completes with metrics for Route 2 only — a
partially computed best-effort result, not "a fully validated solution or an
error". -/
theorem solve_error_swallowed_not_propagated :
    (fun (m : List (List ℚ)) (_ : Nat) =>
        if m = [[0, 1], [1, 0]] then (.error .solveError : Except PyErr (List (List Nat)))
        else .ok [[0, 1, 0]]) [[0, 1], [1, 0]] 1 = .error .solveError ∧
    proOptimize (fun _ => some (0, 0))
      (fun addrs => if addrs = ["D", "A"] then [[some 0, some 1000], [some 1000, some 0]]
                    else [[some 0, some 2000], [some 2000, some 0]])
      (fun m _ => if m = [[0, 1], [1, 0]] then .error .solveError else .ok [[0, 1, 0]])
      "D" (1/4)
      [("Route 1", [⟨"A", "", 0, ""⟩]), ("Route 2", [⟨"B", "", 0, ""⟩])] =
      .ok ([("Route 2", ⟨["D", "B", "D"], 4, 1, 6⟩)],
           ["⚠️ Optimization failed for Route 1"]) := by
  refine ⟨by norm_num, ?_⟩
  have ha1 : proAddresses "D" [⟨"A", "", 0, ""⟩] = ["D", "A"] := by decide
  have ha2 : proAddresses "D" [⟨"B", "", 0, ""⟩] = ["D", "B"] := by decide
  have hb : ¬ (("B" : String) = "A") := by decide
  have hm1 : proGetDistanceMatrix [[some 0, some 1000], [some 1000, some 0]] =
      .ok [[(0 : ℚ), 1], [1, 0]] := by norm_num [proGetDistanceMatrix, emapM]
  have hm2 : proGetDistanceMatrix [[some 0, some 2000], [some 2000, some 0]] =
      .ok [[(0 : ℚ), 2], [2, 0]] := by norm_num [proGetDistanceMatrix, emapM]
  have hd : pyRound 2 (totalDist [[(0 : ℚ), 2], [2, 0]] [0, 1, 0]) = 4 := by
    rw [totalDist]; norm_num [List.range_succ, pyRound, round_eq]
  have hc : pyRound 2 (totalDist [[(0 : ℚ), 2], [2, 0]] [0, 1, 0] * (1/4)) = 1 := by
    rw [totalDist]; norm_num [List.range_succ, pyRound, round_eq]
  have hu : pyRound 1 (totalDist [[(0 : ℚ), 2], [2, 0]] [0, 1, 0] / 40 * 60) = 6 := by
    rw [totalDist]; norm_num [List.range_succ, pyRound, round_eq]
  have hs1 : proRouteStep
      (fun addrs => if addrs = ["D", "A"] then [[some 0, some 1000], [some 1000, some 0]]
                    else [[some 0, some 2000], [some 2000, some 0]])
      (fun m _ => if m = [[0, 1], [1, 0]] then .error .solveError else .ok [[0, 1, 0]])
      "D" (1/4) "Route 1" [⟨"A", "", 0, ""⟩] =
        .ok (.warn "⚠️ Optimization failed for Route 1") := by
    rw [proRouteStep, ha1]
    norm_num [hm1, exceptBind_ok]
    decide
  have hs2 : proRouteStep
      (fun addrs => if addrs = ["D", "A"] then [[some 0, some 1000], [some 1000, some 0]]
                    else [[some 0, some 2000], [some 2000, some 0]])
      (fun m _ => if m = [[0, 1], [1, 0]] then .error .solveError else .ok [[0, 1, 0]])
      "D" (1/4) "Route 2" [⟨"B", "", 0, ""⟩] =
        .ok (.record "Route 2" ⟨["D", "B", "D"], 4, 1, 6⟩) := by
    rw [proRouteStep, ha2]
    norm_num [hb, hm2, exceptBind_ok, hd, hc, hu]
  simp only [proOptimize, proLoop, hs1, hs2, List.nil_append]

theorem proRouteStep_always_ok (gm : List String → List (List (Option ℤ)))
    (psolve : List (List ℚ) → Nat → Except PyErr (List (List Nat)))
    (depot : String) (fuel : ℚ) (name : String) (stops : List ProStop)
    (hgm : ∃ m2, proGetDistanceMatrix (gm (proAddresses depot stops)) = .ok m2) :
    ∃ o, proRouteStep gm psolve depot fuel name stops = .ok o := by
  rw [proRouteStep]
  by_cases h : (proAddresses depot stops).length < 2
  · exact ⟨.skip, by rw [if_pos h]⟩
  · obtain ⟨m2, hm2⟩ := hgm
    rw [if_neg h, hm2, exceptBind_ok]
    cases hs : psolve m2 1 with
    | error e => exact ⟨_, rfl⟩
    | ok l =>
      cases l with
      | nil => exact ⟨_, rfl⟩
      | cons i t => exact ⟨_, rfl⟩

theorem proLoop_always_ok (gm : List String → List (List (Option ℤ)))
    (psolve : List (List ℚ) → Nat → Except PyErr (List (List Nat)))
    (depot : String) (fuel : ℚ)
    (hgm : ∀ addrs, ∃ m2, proGetDistanceMatrix (gm addrs) = .ok m2)
    (routes : List (String × List ProStop)) :
    ∀ acc, ∃ res, proLoop gm psolve depot fuel routes acc = .ok res := by
  induction routes with
  | nil => exact fun acc => ⟨acc, rfl⟩
  | cons r rest ih =>
    intro acc
    obtain ⟨o, ho⟩ := proRouteStep_always_ok gm psolve depot fuel r.1 r.2
      (hgm (proAddresses depot r.2))
    cases o with
    | skip =>
      obtain ⟨res, hres⟩ := ih acc
      exact ⟨res, by simp only [proLoop, ho]; exact hres⟩
    | warn msg =>
      obtain ⟨res, hres⟩ := ih (acc.1, acc.2 ++ [msg])
      exact ⟨res, by simp only [proLoop, ho]; exact hres⟩
    | record n m =>
      obtain ⟨res, hres⟩ := ih (acc.1 ++ [(n, m)], acc.2)
      exact ⟨res, by simp only [proLoop, ho]; exact hres⟩

/-- C4 amended: errors raised by `solve_vrp` are not propagated out of the Pro
handler — whenever the depot geocodes and every distance-matrix call succeeds,
the Optimize Now run returns successfully no matter what the solver does to
any route (failed routes degrade to warnings, the rest are reported).  In
Lite, a falsy solver result is recorded as a zero-stat "No route" entry and
the loop continues (Lite.py lines 178-181). -/
theorem solve_errors_caught_run_completes (geo : String → Option Coord)
    (gm : List String → List (List (Option ℤ)))
    (psolve : List (List ℚ) → Nat → Except PyErr (List (List Nat)))
    (depot : String) (fuel : ℚ) (routes : List (String × List ProStop))
    (ext : String → Option Coord) (solver : List (List ℝ) → Nat → List (List Nat))
    (ldepot : String) (lstops : List (String × String)) (r2d : Bool)
    (lm : List (List ℝ))
    (hd : geo depot ≠ none)
    (hgm : ∀ addrs, ∃ m2, proGetDistanceMatrix (gm addrs) = .ok m2)
    (hL2 : ¬ (liteAddressList ldepot lstops).length < 2)
    (hLm : liteMatrixE ((liteAddressList ldepot lstops).map (liteGeocode ext)) = .ok lm)
    (hLs : solver lm 1 = []) :
    (∃ res, proOptimize geo gm psolve depot fuel routes = .ok res) ∧
    liteVehicleStep ext solver ldepot lstops r2d = .ok ([], [], ⟨0, 0, "❌ No route"⟩) := by
  constructor
  · rw [proOptimize]
    cases hgeo : geo depot with
    | none => exact absurd hgeo hd
    | some c => exact proLoop_always_ok gm psolve depot fuel hgm routes ([], [])
  · rw [liteVehicleStep, if_neg hL2, hLm, exceptBind_ok, hLs]

theorem solve_errors_caught_run_completes_witness :
    (∃ res, proOptimize (fun _ => some (0, 0)) (fun _ => [])
      (fun _ _ => .error .solveError) "D" 1 [("Route 1", [⟨"A", "", 0, ""⟩])] = .ok res) ∧
    liteVehicleStep (fun _ => some (0, 0)) (fun _ _ => []) "D" [("Stop 1", "A")] true =
      .ok ([], [], ⟨0, 0, "❌ No route"⟩) :=
  solve_errors_caught_run_completes (fun _ => some (0, 0)) (fun _ => [])
    (fun _ _ => .error .solveError) "D" 1 [("Route 1", [⟨"A", "", 0, ""⟩])]
    (fun _ => some (0, 0)) (fun _ _ => []) "D" [("Stop 1", "A")] true
    [[(0 : ℝ), liteEntry (0, 0) (0, 0)], [liteEntry (0, 0) (0, 0), (0 : ℝ)]]
    (by simp) (fun _ => ⟨[], rfl⟩) (by decide) rfl rfl

/-- C5 counterexample: the duration conversion is the hardcoded `/ 40 * 60`
(Lite.py line 166, Pro.py line 198), not a caller hook: changing the only
numeric configuration Pro exposes (fuel cost per km: 0.25 vs 1000) changes the
reported cost but leaves the reported duration at 6 minutes for the same
4 km route. -/
theorem duration_factor_unaffected_by_config :
    proRouteStep (fun _ => [[some 0, some 2000], [some 2000, some 0]])
        (fun _ _ => .ok [[0, 1, 0]]) "D" (1/4) "R" [⟨"A", "", 0, ""⟩] =
      .ok (.record "R" ⟨["D", "A", "D"], 4, 1, 6⟩) ∧
    proRouteStep (fun _ => [[some 0, some 2000], [some 2000, some 0]])
        (fun _ _ => .ok [[0, 1, 0]]) "D" 1000 "R" [⟨"A", "", 0, ""⟩] =
      .ok (.record "R" ⟨["D", "A", "D"], 4, 4000, 6⟩) := by
  have ha : proAddresses "D" [⟨"A", "", 0, ""⟩] = ["D", "A"] := by decide
  have hm : proGetDistanceMatrix [[some 0, some 2000], [some 2000, some 0]] =
      .ok [[(0 : ℚ), 2], [2, 0]] := by norm_num [proGetDistanceMatrix, emapM]
  have hd : pyRound 2 (totalDist [[(0 : ℚ), 2], [2, 0]] [0, 1, 0]) = 4 := by
    rw [totalDist]; norm_num [List.range_succ, pyRound, round_eq]
  have hc1 : pyRound 2 (totalDist [[(0 : ℚ), 2], [2, 0]] [0, 1, 0] * (1/4)) = 1 := by
    rw [totalDist]; norm_num [List.range_succ, pyRound, round_eq]
  have hc2 : pyRound 2 (totalDist [[(0 : ℚ), 2], [2, 0]] [0, 1, 0] * 1000) = 4000 := by
    rw [totalDist]; norm_num [List.range_succ, pyRound, round_eq]
  have hu : pyRound 1 (totalDist [[(0 : ℚ), 2], [2, 0]] [0, 1, 0] / 40 * 60) = 6 := by
    rw [totalDist]; norm_num [List.range_succ, pyRound, round_eq]
  constructor
  · rw [proRouteStep, ha]
    norm_num [hm, exceptBind_ok, hd, hc1, hu]
  · rw [proRouteStep, ha]
    norm_num [hm, exceptBind_ok, hd, hc2, hu]

theorem proRouteStep_fuel_skip (gm : List String → List (List (Option ℤ)))
    (psolve : List (List ℚ) → Nat → Except PyErr (List (List Nat)))
    (pdepot : String) (f₁ f₂ : ℚ) (pname : String) (pstops : List ProStop)
    (h : (proAddresses pdepot pstops).length < 2) :
    Except.map eraseCost (proRouteStep gm psolve pdepot f₁ pname pstops) =
      Except.map eraseCost (proRouteStep gm psolve pdepot f₂ pname pstops) := by
  unfold proRouteStep
  rw [if_pos h, if_pos h]

theorem proRouteStep_fuel_matrix_error (gm : List String → List (List (Option ℤ)))
    (psolve : List (List ℚ) → Nat → Except PyErr (List (List Nat)))
    (pdepot : String) (f₁ f₂ : ℚ) (pname : String) (pstops : List ProStop)
    (h : ¬ (proAddresses pdepot pstops).length < 2) (e : PyErr)
    (hm : proGetDistanceMatrix (gm (proAddresses pdepot pstops)) = .error e) :
    Except.map eraseCost (proRouteStep gm psolve pdepot f₁ pname pstops) =
      Except.map eraseCost (proRouteStep gm psolve pdepot f₂ pname pstops) := by
  unfold proRouteStep
  rw [if_neg h, if_neg h, hm, exceptBind_error, exceptBind_error]

theorem proRouteStep_fuel_solve_error (gm : List String → List (List (Option ℤ)))
    (psolve : List (List ℚ) → Nat → Except PyErr (List (List Nat)))
    (pdepot : String) (f₁ f₂ : ℚ) (pname : String) (pstops : List ProStop)
    (h : ¬ (proAddresses pdepot pstops).length < 2) (mtx : List (List ℚ))
    (hm : proGetDistanceMatrix (gm (proAddresses pdepot pstops)) = .ok mtx)
    (e : PyErr) (hs : psolve mtx 1 = .error e) :
    Except.map eraseCost (proRouteStep gm psolve pdepot f₁ pname pstops) =
      Except.map eraseCost (proRouteStep gm psolve pdepot f₂ pname pstops) := by
  unfold proRouteStep
  rw [if_neg h, if_neg h, hm, exceptBind_ok, exceptBind_ok, hs]

theorem proRouteStep_fuel_solve_nil (gm : List String → List (List (Option ℤ)))
    (psolve : List (List ℚ) → Nat → Except PyErr (List (List Nat)))
    (pdepot : String) (f₁ f₂ : ℚ) (pname : String) (pstops : List ProStop)
    (h : ¬ (proAddresses pdepot pstops).length < 2) (mtx : List (List ℚ))
    (hm : proGetDistanceMatrix (gm (proAddresses pdepot pstops)) = .ok mtx)
    (hs : psolve mtx 1 = .ok []) :
    Except.map eraseCost (proRouteStep gm psolve pdepot f₁ pname pstops) =
      Except.map eraseCost (proRouteStep gm psolve pdepot f₂ pname pstops) := by
  unfold proRouteStep
  rw [if_neg h, if_neg h, hm, exceptBind_ok, exceptBind_ok, hs]

theorem proRouteStep_fuel_solve_cons (gm : List String → List (List (Option ℤ)))
    (psolve : List (List ℚ) → Nat → Except PyErr (List (List Nat)))
    (pdepot : String) (f₁ f₂ : ℚ) (pname : String) (pstops : List ProStop)
    (h : ¬ (proAddresses pdepot pstops).length < 2) (mtx : List (List ℚ))
    (hm : proGetDistanceMatrix (gm (proAddresses pdepot pstops)) = .ok mtx)
    (i : List Nat) (t : List (List Nat)) (hs : psolve mtx 1 = .ok (i :: t)) :
    Except.map eraseCost (proRouteStep gm psolve pdepot f₁ pname pstops) =
      Except.map eraseCost (proRouteStep gm psolve pdepot f₂ pname pstops) := by
  unfold proRouteStep
  rw [if_neg h, if_neg h, hm, exceptBind_ok, exceptBind_ok, hs]
  simp only [Except.map, eraseCost]

/-- C5 amended: the duration conversion factor (40 km/h, i.e. minutes =
km / 40 × 60) and the load-classification cutoffs (stop count ≤ 2 light,
≤ 4 medium, else heavy) are hardcoded constants in the callers: Lite reports
them by these fixed formulas for every caller input, and in Pro everything
except the fuel-cost field of a metrics record is independent of the
fuel-cost configuration — no caller hook reaches the duration. -/
theorem duration_factor_and_thresholds_hardcoded (ext : String → Option Coord)
    (solver : List (List ℝ) → Nat → List (List Nat))
    (depot : String) (stops : List (String × String)) (r2d : Bool)
    (m : List (List ℝ)) (p : List Nat) (ptail : List (List Nat))
    (hL2 : ¬ (liteAddressList depot stops).length < 2)
    (hLm : liteMatrixE ((liteAddressList depot stops).map (liteGeocode ext)) = .ok m)
    (hLs : solver m 1 = p :: ptail) :
    (∃ labels addrs, liteVehicleStep ext solver depot stops r2d =
      .ok (labels, addrs,
        ⟨pyRound 2 (totalDist m p),
         pyRound 1 (totalDist m p / 40 * 60),
         if (if r2d then (p.length : ℤ) - 2 else (p.length : ℤ) - 1) ≤ 2 then "🕦 Light"
         else if (if r2d then (p.length : ℤ) - 2 else (p.length : ℤ) - 1) ≤ 4 then
           "🟡 Medium"
         else "🔴 Heavy"⟩)) ∧
    (∀ (gm : List String → List (List (Option ℤ)))
       (psolve : List (List ℚ) → Nat → Except PyErr (List (List Nat)))
       (pdepot : String) (f₁ f₂ : ℚ) (pname : String) (pstops : List ProStop),
      Except.map eraseCost (proRouteStep gm psolve pdepot f₁ pname pstops) =
      Except.map eraseCost (proRouteStep gm psolve pdepot f₂ pname pstops)) := by
  constructor
  · refine ⟨p.map (fun i => (liteLabelList stops).getD i ""),
      p.map (fun i => (liteAddressList depot stops).getD i ""), ?_⟩
    rw [liteVehicleStep, if_neg hL2, hLm, exceptBind_ok, hLs]
  · intro gm psolve pdepot f₁ f₂ pname pstops
    by_cases h : (proAddresses pdepot pstops).length < 2
    · exact proRouteStep_fuel_skip gm psolve pdepot f₁ f₂ pname pstops h
    · cases hm : proGetDistanceMatrix (gm (proAddresses pdepot pstops)) with
      | error e => exact proRouteStep_fuel_matrix_error gm psolve pdepot f₁ f₂ pname pstops h e hm
      | ok mtx =>
        cases hs : psolve mtx 1 with
        | error e =>
          exact proRouteStep_fuel_solve_error gm psolve pdepot f₁ f₂ pname pstops h mtx hm e hs
        | ok l =>
          cases l with
          | nil => exact proRouteStep_fuel_solve_nil gm psolve pdepot f₁ f₂ pname pstops h mtx hm hs
          | cons i t =>
            exact proRouteStep_fuel_solve_cons gm psolve pdepot f₁ f₂ pname pstops h mtx hm i t hs

theorem duration_factor_and_thresholds_hardcoded_witness :
    (∃ labels addrs, liteVehicleStep (fun _ => some (0, 0)) (fun _ _ => [[0, 1, 0]]) "D"
        [("Stop 1", "A")] false =
      .ok (labels, addrs,
        ⟨pyRound 2 (totalDist [[(0 : ℝ), liteEntry (0, 0) (0, 0)],
            [liteEntry (0, 0) (0, 0), (0 : ℝ)]] [0, 1, 0]),
         pyRound 1 (totalDist [[(0 : ℝ), liteEntry (0, 0) (0, 0)],
            [liteEntry (0, 0) (0, 0), (0 : ℝ)]] [0, 1, 0] / 40 * 60),
         if (if false then (([0, 1, 0] : List Nat).length : ℤ) - 2
             else (([0, 1, 0] : List Nat).length : ℤ) - 1) ≤ 2 then "🕦 Light"
         else if (if false then (([0, 1, 0] : List Nat).length : ℤ) - 2
                  else (([0, 1, 0] : List Nat).length : ℤ) - 1) ≤ 4 then "🟡 Medium"
         else "🔴 Heavy"⟩)) ∧
    (∀ (gm : List String → List (List (Option ℤ)))
       (psolve : List (List ℚ) → Nat → Except PyErr (List (List Nat)))
       (pdepot : String) (f₁ f₂ : ℚ) (pname : String) (pstops : List ProStop),
      Except.map eraseCost (proRouteStep gm psolve pdepot f₁ pname pstops) =
      Except.map eraseCost (proRouteStep gm psolve pdepot f₂ pname pstops)) :=
  duration_factor_and_thresholds_hardcoded (fun _ => some (0, 0)) (fun _ _ => [[0, 1, 0]])
    "D" [("Stop 1", "A")] false
    [[(0 : ℝ), liteEntry (0, 0) (0, 0)], [liteEntry (0, 0) (0, 0), (0 : ℝ)]]
    [0, 1, 0] [] (by decide) rfl rfl

/-- C3: no sentinel is ever substituted for an unobtainable travel cost.  In
Pro, `get_distance_matrix` subscripts `e['distance']['value']` unguarded
(Pro.py line 34), so an element without a distance value — an unreachable
pair — raises `KeyError` (and the call sits outside the handler's `try`, so
the whole optimize run aborts); no matrix containing a sentinel is ever
handed to the solver. -/
theorem unreachable_pair_raises_key_error :
    proGetDistanceMatrix [[some 0, none], [none, some 0]] = .error .keyError := by
  decide
